import Mathlib

/-!
Shallow embedding of the PrepPilot AI quiz application: the session state
machine and countdown timer of the main `App` component, together with the
response handling of the two Gemini service calls (`getExamSections` and
`generateQuestions`).  The network itself is abstracted away: a response is
represented by the data it carries (grounding citations and the outcome of
parsing its body), and every state transition the component can perform is
embedded as a pure function on the component state.
-/

namespace PrepPilot

/-- Interface `Question` from `types.ts`.  `correctAnswer` is a JS number obtained from
parsed JSON, so it is embedded as an unconstrained integer. -/
structure Question where
  id : String
  text : String
  options : List String
  correctAnswer : Int
  explanation : Option String
deriving DecidableEq

/-- A `{title, uri}` citation pair (the elements of `QuizState.sources`). -/
structure Web where
  title : String
  uri : String
deriving DecidableEq

/-- The `status` union of `QuizState` in `types.ts`. -/
inductive Status where
  | idle
  | fetching_sections
  | selecting_section
  | generating
  | active
  | completed
deriving DecidableEq

/-- Interface `QuizState` from `types.ts`.  `timeRemaining` is a JS number, embedded as
an integer so that its non-negativity is a provable invariant rather than an
artifact of the embedding's types. -/
structure QuizState where
  examName : String
  sections : List String
  sources : List Web
  selectedSection : Option String
  questionCount : Nat
  timeRemaining : Int
  isTimerRunning : Bool
  questions : List Question
  currentQuestionIndex : Nat
  score : Nat
  answers : List (Option Int)
  status : Status
  error : Option String
deriving DecidableEq

/-- The full component state of `App`: the `QuizState` of the first
`useState` hook plus the two per-question UI hooks `selectedOption` and
`isAnswered`. -/
structure AppState where
  quiz : QuizState
  selectedOption : Option Int
  isAnswered : Bool
deriving DecidableEq

/-! ## The Gemini service (`services/geminiService.ts`) -/

/-- Interface `SyllabusInfo` from `geminiService.ts`. -/
structure SyllabusInfo where
  sections : List String
  sources : List Web
deriving DecidableEq

/-- Outcome of the body parse in `getExamSections`
(JSON.parse of the body text, defaulting to an empty object): either the parse succeeds,
carrying the optional `sections` field (`none` when the key is absent or its
value falsy), or the parse throws. -/
inductive SectionsBody where
  | parsed (sectionsField : Option (List String))
  | malformed
deriving DecidableEq

/-- The data of one syllabus-lookup response: the optional `web` field of
each grounding chunk, and the outcome of parsing the body text. -/
structure SectionsResponse where
  groundingWebs : List (Option Web)
  body : SectionsBody
deriving DecidableEq

/-- The fixed fallback section list of `getExamSections`. -/
def fallbackSections : List String :=
  ["General Knowledge", "Core Concepts", "Advanced Topics", "Practice Set"]

/-- Function `getExamSections`, response handling: keep the grounding citations whose
`web.uri` is truthy; on a successful parse return `data.sections` (or the
fallback when that field is missing) together with the first three sources;
on a parse failure return the fallback with no sources. -/
def getExamSections (resp : SectionsResponse) : SyllabusInfo :=
  let sources := (resp.groundingWebs.filterMap id).filter (fun w => w.uri != "")
  match resp.body with
  | .parsed sectionsField =>
      { sections := sectionsField.getD fallbackSections
        sources := sources.take 3 }
  | .malformed =>
      { sections := fallbackSections
        sources := [] }

/-- One element of the JSON array parsed by `generateQuestions`: the fields
requested by the response schema, before an `id` is attached. -/
structure RawQuestion where
  text : String
  options : List String
  correctAnswer : Int
  explanation : String
deriving DecidableEq

/-- Outcome of the body parse in `generateQuestions`
(`JSON.parse(response.text || "[]")`). -/
inductive QuestionsBody where
  | parsed (items : List RawQuestion)
  | malformed
deriving DecidableEq

/-- The map callback of `generateQuestions`: spread the parsed item's
fields and attach the id `q-` followed by the item's index. -/
def attachId (p : Nat × RawQuestion) : Question :=
  { id := "q-" ++ toString p.1
    text := p.2.text
    options := p.2.options
    correctAnswer := p.2.correctAnswer
    explanation := some p.2.explanation }

/-- Function `generateQuestions`, response handling: on a successful parse map each
item to a `Question` whose id is `q-` followed by its index; on a parse
failure throw the fixed error message.  The requested `count` only shapes
the prompt — the parsed data is not validated against it. -/
def generateQuestions (count : Nat) (resp : QuestionsBody) :
    Except String (List Question) :=
  match resp with
  | .parsed items => .ok (items.enum.map attachId)
  | .malformed => .error "Failed to generate questions. Please try again."

/-! ## The `App` component handlers -/

/-- JS `String.prototype.trim`: strip leading and trailing whitespace.
Implemented by structural recursion on the character list so that concrete
states evaluate inside the kernel. -/
def jsTrim (s : String) : String :=
  ⟨(((s.data.dropWhile Char.isWhitespace).reverse).dropWhile Char.isWhitespace).reverse⟩

/-- The initial component state (the `useState` initializers of `App`). -/
def initialAppState : AppState :=
  { quiz :=
      { examName := ""
        sections := []
        sources := []
        selectedSection := none
        questionCount := 5
        timeRemaining := 0
        isTimerRunning := false
        questions := []
        currentQuestionIndex := 0
        score := 0
        answers := []
        status := .idle
        error := none }
    selectedOption := none
    isAnswered := false }

/-- First branch of the timer `useEffect`: while the session is active, the
timer running and time positive, the scheduled interval decrements
`timeRemaining` by 1. -/
def timerTick (s : AppState) : AppState :=
  if s.quiz.status = .active ∧ s.quiz.isTimerRunning = true ∧ 0 < s.quiz.timeRemaining then
    { s with quiz := { s.quiz with timeRemaining := s.quiz.timeRemaining - 1 } }
  else s

/-- Second branch of the timer `useEffect`: the instant `timeRemaining` is 0
while the session is active, force the status to completed and stop the
timer. -/
def timerCheck (s : AppState) : AppState :=
  if s.quiz.timeRemaining = 0 ∧ s.quiz.status = .active then
    { s with quiz := { s.quiz with status := .completed, isTimerRunning := false } }
  else s

/-- Synchronous part of `handleFetchSections`: rejected when the trimmed
exam name is empty, otherwise clear the error and enter
`fetching_sections`. -/
def handleFetchSectionsStart (s : AppState) : AppState :=
  if jsTrim s.quiz.examName = "" then s
  else { s with quiz := { s.quiz with status := .fetching_sections, error := none } }

/-- Settlement of `handleFetchSections`: on success store the sections and
sources and enter `selecting_section`; on failure store the error message
and return to `idle`. -/
def handleFetchSectionsSettle (s : AppState) (r : Except String SyllabusInfo) : AppState :=
  match r with
  | .ok syllabus =>
      { s with quiz := { s.quiz with
          sections := syllabus.sections
          sources := syllabus.sources
          status := .selecting_section } }
  | .error msg =>
      { s with quiz := { s.quiz with status := .idle, error := some msg } }

/-- Synchronous part of `handleGenerateQuestions`: rejected when no section
is selected, otherwise clear the error and enter `generating`. -/
def handleGenerateQuestionsStart (s : AppState) : AppState :=
  match s.quiz.selectedSection with
  | none => s
  | some _ => { s with quiz := { s.quiz with status := .generating, error := none } }

/-- Settlement of `handleGenerateQuestions`: on success install the
questions, reset the index and score, fill `answers` with nulls, start the
timer at `questionCount * 60` seconds and enter `active`; on failure store
the error message and return to `selecting_section`. -/
def handleGenerateQuestionsSettle (s : AppState) (r : Except String (List Question)) :
    AppState :=
  match r with
  | .ok questions =>
      { s with quiz := { s.quiz with
          questions := questions
          status := .active
          currentQuestionIndex := 0
          score := 0
          timeRemaining := (s.quiz.questionCount : Int) * 60
          isTimerRunning := true
          answers := List.replicate questions.length none } }
  | .error msg =>
      { s with quiz := { s.quiz with status := .selecting_section, error := some msg } }

/-- Handler `handleAnswerSubmit`: ignored when no option is selected or the current
question is already answered; otherwise mark the question answered, record
the chosen option in the current answer slot, and increment the score when
the choice equals the current question's `correctAnswer`. -/
def handleAnswerSubmit (s : AppState) : AppState :=
  match s.selectedOption, s.isAnswered with
  | none, _ => s
  | some _, true => s
  | some sel, false =>
      let isCorrect : Bool :=
        match s.quiz.questions.get? s.quiz.currentQuestionIndex with
        | some q => sel == q.correctAnswer
        | none => false
      { s with
        isAnswered := true
        quiz := { s.quiz with
          score := if isCorrect then s.quiz.score + 1 else s.quiz.score
          answers := s.quiz.answers.set s.quiz.currentQuestionIndex (some sel) } }

/-- Handler `handleNextQuestion`: while more questions remain, advance the index and
clear the per-question UI state; otherwise enter `completed`. -/
def handleNextQuestion (s : AppState) : AppState :=
  if s.quiz.currentQuestionIndex < s.quiz.questions.length - 1 then
    { s with
      quiz := { s.quiz with currentQuestionIndex := s.quiz.currentQuestionIndex + 1 }
      selectedOption := none
      isAnswered := false }
  else
    { s with quiz := { s.quiz with status := .completed } }

/-- Handler `resetQuiz`: every field back to its initial value, from any state. -/
def resetQuiz (s : AppState) : AppState :=
  { quiz :=
      { examName := ""
        sections := []
        sources := []
        selectedSection := none
        questionCount := 5
        timeRemaining := 0
        isTimerRunning := false
        questions := []
        currentQuestionIndex := 0
        score := 0
        answers := []
        status := .idle
        error := none }
    selectedOption := none
    isAnswered := false }

/-! ## Events and reachable states -/

/-- Number of option buttons rendered for the current question (`0` when no
question exists at the current index, in which case the quiz view cannot
offer an option). -/
def currentOptionCount (s : AppState) : Nat :=
  match s.quiz.questions.get? s.quiz.currentQuestionIndex with
  | some q => q.options.length
  | none => 0

/-- The UI events and external-call settlements that drive the component. -/
inductive Event where
  | setExamName (n : String)
  | fetchStart
  | fetchSettle (r : Except String SyllabusInfo)
  | selectSection (sec : String)
  | setQuestionCount (c : Nat)
  | back
  | genStart
  | genSettle (r : Except String (List Question))
  | selectOption (i : Nat)
  | submitAnswer
  | nextQuestion
  | toggleTimer
  | tick
  | timerZero
  | reset

/-- When each event is available: user events are gated by the controls the
component renders in each status, settlement events by the in-flight status
that awaits them, and the timer events carry their guards inside their
effects. -/
def uiEnabled (s : AppState) : Event → Prop
  | .setExamName _ => s.quiz.status = .idle
  | .fetchStart => s.quiz.status = .idle
  | .fetchSettle _ => s.quiz.status = .fetching_sections
  | .selectSection sec => s.quiz.status = .selecting_section ∧ sec ∈ s.quiz.sections
  | .setQuestionCount c => s.quiz.status = .selecting_section ∧ c ∈ ([5, 10, 20, 50] : List Nat)
  | .back => s.quiz.status = .selecting_section
  | .genStart => s.quiz.status = .selecting_section ∧ s.quiz.selectedSection ≠ none
  | .genSettle _ => s.quiz.status = .generating
  | .selectOption i => s.quiz.status = .active ∧ s.isAnswered = false ∧ i < currentOptionCount s
  | .submitAnswer => s.quiz.status = .active ∧ s.isAnswered = false ∧ s.selectedOption ≠ none
  | .nextQuestion => s.quiz.status = .active ∧ s.isAnswered = true
  | .toggleTimer => s.quiz.status = .active
  | .tick => True
  | .timerZero => True
  | .reset => True

/-- The effect of each event on the component state. -/
def applyEvent (s : AppState) : Event → AppState
  | .setExamName n => { s with quiz := { s.quiz with examName := n } }
  | .fetchStart => handleFetchSectionsStart s
  | .fetchSettle r => handleFetchSectionsSettle s r
  | .selectSection sec => { s with quiz := { s.quiz with selectedSection := some sec } }
  | .setQuestionCount c => { s with quiz := { s.quiz with questionCount := c } }
  | .back => { s with quiz := { s.quiz with status := .idle, selectedSection := none } }
  | .genStart => handleGenerateQuestionsStart s
  | .genSettle r => handleGenerateQuestionsSettle s r
  | .selectOption i => { s with selectedOption := some (i : Int) }
  | .submitAnswer => handleAnswerSubmit s
  | .nextQuestion => handleNextQuestion s
  | .toggleTimer => { s with quiz := { s.quiz with isTimerRunning := !s.quiz.isTimerRunning } }
  | .tick => timerTick s
  | .timerZero => timerCheck s
  | .reset => resetQuiz s

/-- The component states reachable from the initial state through available
events. -/
inductive Reachable : AppState → Prop where
  | init : Reachable initialAppState
  | step (s : AppState) (e : Event) (hs : Reachable s) (he : uiEnabled s e) :
      Reachable (applyEvent s e)

/-! ## Auxiliary list lemmas -/

theorem getD_replicate_none (n j : Nat) :
    (List.replicate n (none : Option Int)).getD j none = none := by
  rw [List.getD_eq_getElem?_getD]
  rcases Nat.lt_or_ge j n with h | h
  · simp [List.getElem?_replicate, h]
  · simp [List.getElem?_replicate, Nat.not_lt.2 h]

theorem getD_set_ne (l : List (Option Int)) (i j : Nat) (a : Option Int) (h : i ≠ j) :
    (l.set i a).getD j none = l.getD j none := by
  rw [List.getD_eq_getElem?_getD, List.getD_eq_getElem?_getD, List.getElem?_set_ne h]

theorem idx_lt_of_optionCount_pos (s : AppState) (i : Nat) (h : i < currentOptionCount s) :
    s.quiz.currentQuestionIndex < s.quiz.questions.length := by
  unfold currentOptionCount at h
  rcases hq : s.quiz.questions.get? s.quiz.currentQuestionIndex with _ | q
  · rw [hq] at h
    simp at h
  · have : s.quiz.questions.get? s.quiz.currentQuestionIndex ≠ none := by
      rw [hq]
      exact Option.some_ne_none q
    rw [Ne, List.get?_eq_none] at this
    omega

/-! ## The inductive invariant of reachable states -/

/-- The statuses a session can hold before a quiz run starts. -/
def PreActive (st : Status) : Prop :=
  st = .idle ∨ st = .fetching_sections ∨ st = .selecting_section ∨ st = .generating

/-- The inductive invariant: every conjunct is preserved by every available
event, and together they establish the claimed safety properties of the
session state machine and timer. -/
structure InvHolds (s : AppState) : Prop where
  time_nonneg : 0 ≤ s.quiz.timeRemaining
  time_le : s.quiz.timeRemaining ≤ (s.quiz.questionCount : Int) * 60
  pre_clean : PreActive s.quiz.status →
      s.quiz.timeRemaining = 0 ∧ s.quiz.currentQuestionIndex = 0 ∧ s.quiz.score = 0 ∧
      s.quiz.questions = [] ∧ s.quiz.answers = [] ∧ s.isAnswered = false ∧
      s.selectedOption = none
  answers_len : s.quiz.answers.length = s.quiz.questions.length
  idx_bound : s.quiz.currentQuestionIndex < s.quiz.questions.length ∨
      s.quiz.currentQuestionIndex = 0
  cur_slot : s.quiz.status = .active → s.isAnswered = false →
      s.quiz.answers.getD s.quiz.currentQuestionIndex none = none
  future_slots : s.quiz.status = .active → ∀ j, s.quiz.currentQuestionIndex < j →
      s.quiz.answers.getD j none = none
  score_bound : s.quiz.status = .active →
      s.quiz.score ≤ s.quiz.currentQuestionIndex + (if s.isAnswered then 1 else 0)
  sel_bound : s.quiz.status = .active → s.selectedOption ≠ none →
      s.quiz.currentQuestionIndex < s.quiz.questions.length
  ans_bound : s.quiz.status = .active → s.isAnswered = true →
      s.quiz.currentQuestionIndex < s.quiz.questions.length
  score_completed : s.quiz.status = .completed → s.quiz.score ≤ s.quiz.questions.length
  inflight_error : s.quiz.status = .fetching_sections ∨ s.quiz.status = .generating →
      s.quiz.error = none

theorem invariant_init : InvHolds initialAppState := by
  refine ⟨?_, ?_, ?_, ?_, ?_, ?_, ?_, ?_, ?_, ?_, ?_, ?_⟩
  · decide
  · decide
  · intro _
    exact ⟨rfl, rfl, rfl, rfl, rfl, rfl, rfl⟩
  · rfl
  · exact Or.inr rfl
  · intro h
    nomatch h
  · intro h
    nomatch h
  · intro h
    nomatch h
  · intro h
    nomatch h
  · intro h
    nomatch h
  · intro h
    nomatch h
  · intro h
    rcases h with h | h <;> nomatch h

theorem invariant_step (s : AppState) (e : Event) (hI : InvHolds s) (he : uiEnabled s e) :
    InvHolds (applyEvent s e) := by
  obtain ⟨htn, htl, hpc, hal, hib, hcs, hfs, hsb, hselb, hansb, hsc, hie⟩ := hI
  cases e with
  | setExamName n =>
      exact ⟨htn, htl, hpc, hal, hib, hcs, hfs, hsb, hselb, hansb, hsc, hie⟩
  | fetchStart =>
      show InvHolds (handleFetchSectionsStart s)
      unfold handleFetchSectionsStart
      split
      · exact ⟨htn, htl, hpc, hal, hib, hcs, hfs, hsb, hselb, hansb, hsc, hie⟩
      · obtain ⟨h0, hix, hs0, hq, ha, hb, hso⟩ := hpc (Or.inl he)
        refine ⟨htn, htl, ?_, hal, hib, ?_, ?_, ?_, ?_, ?_, ?_, ?_⟩
        · intro _
          exact ⟨h0, hix, hs0, hq, ha, hb, hso⟩
        · intro h
          nomatch h
        · intro h
          nomatch h
        · intro h
          nomatch h
        · intro h
          nomatch h
        · intro h
          nomatch h
        · intro h
          nomatch h
        · intro _
          rfl
  | fetchSettle r =>
      show InvHolds (handleFetchSectionsSettle s r)
      obtain ⟨h0, hix, hs0, hq, ha, hb, hso⟩ := hpc (Or.inr (Or.inl he))
      cases r with
      | ok syllabus =>
          refine ⟨htn, htl, ?_, hal, hib, ?_, ?_, ?_, ?_, ?_, ?_, ?_⟩
          · intro _
            exact ⟨h0, hix, hs0, hq, ha, hb, hso⟩
          · intro h
            nomatch h
          · intro h
            nomatch h
          · intro h
            nomatch h
          · intro h
            nomatch h
          · intro h
            nomatch h
          · intro h
            nomatch h
          · intro h
            rcases h with h | h <;> nomatch h
      | error msg =>
          refine ⟨htn, htl, ?_, hal, hib, ?_, ?_, ?_, ?_, ?_, ?_, ?_⟩
          · intro _
            exact ⟨h0, hix, hs0, hq, ha, hb, hso⟩
          · intro h
            nomatch h
          · intro h
            nomatch h
          · intro h
            nomatch h
          · intro h
            nomatch h
          · intro h
            nomatch h
          · intro h
            nomatch h
          · intro h
            rcases h with h | h <;> nomatch h
  | selectSection sec =>
      exact ⟨htn, htl, hpc, hal, hib, hcs, hfs, hsb, hselb, hansb, hsc, hie⟩
  | setQuestionCount c =>
      have h0 : s.quiz.timeRemaining = 0 := (hpc (Or.inr (Or.inr (Or.inl he.1)))).1
      refine ⟨htn, ?_, hpc, hal, hib, hcs, hfs, hsb, hselb, hansb, hsc, hie⟩
      show s.quiz.timeRemaining ≤ (c : Int) * 60
      omega
  | back =>
      obtain ⟨h0, hix, hs0, hq, ha, hb, hso⟩ := hpc (Or.inr (Or.inr (Or.inl he)))
      refine ⟨htn, htl, ?_, hal, hib, ?_, ?_, ?_, ?_, ?_, ?_, ?_⟩
      · intro _
        exact ⟨h0, hix, hs0, hq, ha, hb, hso⟩
      · intro h
        nomatch h
      · intro h
        nomatch h
      · intro h
        nomatch h
      · intro h
        nomatch h
      · intro h
        nomatch h
      · intro h
        nomatch h
      · intro h
        rcases h with h | h <;> nomatch h
  | genStart =>
      show InvHolds (handleGenerateQuestionsStart s)
      unfold handleGenerateQuestionsStart
      split
      · exact ⟨htn, htl, hpc, hal, hib, hcs, hfs, hsb, hselb, hansb, hsc, hie⟩
      · obtain ⟨h0, hix, hs0, hq, ha, hb, hso⟩ := hpc (Or.inr (Or.inr (Or.inl he.1)))
        refine ⟨htn, htl, ?_, hal, hib, ?_, ?_, ?_, ?_, ?_, ?_, ?_⟩
        · intro _
          exact ⟨h0, hix, hs0, hq, ha, hb, hso⟩
        · intro h
          nomatch h
        · intro h
          nomatch h
        · intro h
          nomatch h
        · intro h
          nomatch h
        · intro h
          nomatch h
        · intro h
          nomatch h
        · intro _
          rfl
  | genSettle r =>
      show InvHolds (handleGenerateQuestionsSettle s r)
      obtain ⟨h0, hix, hs0, hq, ha, hb, hso⟩ := hpc (Or.inr (Or.inr (Or.inr he)))
      cases r with
      | ok qs =>
          refine ⟨?_, ?_, ?_, ?_, ?_, ?_, ?_, ?_, ?_, ?_, ?_, ?_⟩
          · show (0 : Int) ≤ (s.quiz.questionCount : Int) * 60
            positivity
          · exact le_refl _
          · intro h
            replace h : Status.active = Status.idle ∨ Status.active = Status.fetching_sections ∨
                Status.active = Status.selecting_section ∨
                Status.active = Status.generating := h
            rcases h with h | h | h | h <;> nomatch h
          · show (List.replicate qs.length (none : Option Int)).length = qs.length
            simp
          · exact Or.inr rfl
          · intro _ _
            exact getD_replicate_none _ _
          · intro _ j _
            exact getD_replicate_none _ _
          · intro _
            exact Nat.zero_le _
          · intro _ hne
            exact absurd hso hne
          · intro _ hb2
            replace hb2 : s.isAnswered = true := hb2
            rw [hb] at hb2
            nomatch hb2
          · intro h
            nomatch h
          · intro h
            rcases h with h | h <;> nomatch h
      | error msg =>
          refine ⟨htn, htl, ?_, hal, hib, ?_, ?_, ?_, ?_, ?_, ?_, ?_⟩
          · intro _
            exact ⟨h0, hix, hs0, hq, ha, hb, hso⟩
          · intro h
            nomatch h
          · intro h
            nomatch h
          · intro h
            nomatch h
          · intro h
            nomatch h
          · intro h
            nomatch h
          · intro h
            nomatch h
          · intro h
            rcases h with h | h <;> nomatch h
  | selectOption i =>
      refine ⟨htn, htl, ?_, hal, hib, hcs, hfs, hsb, ?_, hansb, hsc, hie⟩
      · intro h
        replace h : PreActive s.quiz.status := h
        rw [he.1] at h
        simp [PreActive] at h
      · intro _ _
        exact idx_lt_of_optionCount_pos s i he.2.2
  | submitAnswer =>
      show InvHolds (handleAnswerSubmit s)
      obtain ⟨sel, hsel⟩ : ∃ v, s.selectedOption = some v := by
        cases hx : s.selectedOption with
        | none => exact absurd hx he.2.2
        | some v => exact ⟨v, rfl⟩
      have hidx : s.quiz.currentQuestionIndex < s.quiz.questions.length :=
        hselb he.1 (by rw [hsel]; exact Option.some_ne_none sel)
      have hscore : s.quiz.score ≤ s.quiz.currentQuestionIndex := by
        have h2 := hsb he.1
        rw [he.2.1] at h2
        simpa using h2
      unfold handleAnswerSubmit
      rw [hsel, he.2.1]
      refine ⟨htn, htl, ?_, ?_, hib, ?_, ?_, ?_, ?_, ?_, ?_, ?_⟩
      · intro h
        replace h : PreActive s.quiz.status := h
        rw [he.1] at h
        simp [PreActive] at h
      · show (s.quiz.answers.set s.quiz.currentQuestionIndex (some sel)).length =
            s.quiz.questions.length
        rw [List.length_set]
        exact hal
      · intro _ hfalse
        replace hfalse : (true : Bool) = false := hfalse
        nomatch hfalse
      · intro _ j hj
        show (s.quiz.answers.set s.quiz.currentQuestionIndex (some sel)).getD j none = none
        rw [getD_set_ne _ _ _ _ (Nat.ne_of_lt hj)]
        exact hfs he.1 j hj
      · intro _
        show (if _ = true then s.quiz.score + 1 else s.quiz.score) ≤
            s.quiz.currentQuestionIndex + (if (true : Bool) = true then 1 else 0)
        split <;> simp <;> omega
      · intro _ _
        exact hidx
      · intro _ _
        exact hidx
      · intro h
        replace h : s.quiz.status = Status.completed := h
        rw [he.1] at h
        nomatch h
      · intro h
        replace h : s.quiz.status = Status.fetching_sections ∨
            s.quiz.status = Status.generating := h
        rw [he.1] at h
        rcases h with h | h <;> nomatch h
  | nextQuestion =>
      show InvHolds (handleNextQuestion s)
      unfold handleNextQuestion
      split
      · rename_i hlt
        refine ⟨htn, htl, ?_, hal, ?_, ?_, ?_, ?_, ?_, ?_, ?_, ?_⟩
        · intro h
          replace h : PreActive s.quiz.status := h
          rw [he.1] at h
          simp [PreActive] at h
        · left
          show s.quiz.currentQuestionIndex + 1 < s.quiz.questions.length
          omega
        · intro _ _
          exact hfs he.1 _ (Nat.lt_succ_self _)
        · intro _ j hj
          exact hfs he.1 j (Nat.lt_of_succ_lt hj)
        · intro _
          have h2 := hsb he.1
          rw [he.2] at h2
          simp at h2 ⊢
          omega
        · intro _ hne
          exact absurd rfl hne
        · intro _ hT
          replace hT : (false : Bool) = true := hT
          nomatch hT
        · intro h
          replace h : s.quiz.status = Status.completed := h
          rw [he.1] at h
          nomatch h
        · intro h
          replace h : s.quiz.status = Status.fetching_sections ∨
              s.quiz.status = Status.generating := h
          rw [he.1] at h
          rcases h with h | h <;> nomatch h
      · refine ⟨htn, htl, ?_, hal, hib, ?_, ?_, ?_, ?_, ?_, ?_, ?_⟩
        · intro h
          replace h : Status.completed = Status.idle ∨
              Status.completed = Status.fetching_sections ∨
              Status.completed = Status.selecting_section ∨
              Status.completed = Status.generating := h
          rcases h with h | h | h | h <;> nomatch h
        · intro h
          nomatch h
        · intro h
          nomatch h
        · intro h
          nomatch h
        · intro h
          nomatch h
        · intro h
          nomatch h
        · intro _
          have hidx := hansb he.1 he.2
          have h2 := hsb he.1
          rw [he.2] at h2
          simp at h2
          show s.quiz.score ≤ s.quiz.questions.length
          omega
        · intro h
          rcases h with h | h <;> nomatch h
  | toggleTimer =>
      exact ⟨htn, htl, hpc, hal, hib, hcs, hfs, hsb, hselb, hansb, hsc, hie⟩
  | tick =>
      show InvHolds (timerTick s)
      unfold timerTick
      split
      · rename_i hg
        obtain ⟨hact, hrun, hpos⟩ := hg
        refine ⟨?_, ?_, ?_, hal, hib, hcs, hfs, hsb, hselb, hansb, hsc, hie⟩
        · show (0 : Int) ≤ s.quiz.timeRemaining - 1
          omega
        · show s.quiz.timeRemaining - 1 ≤ (s.quiz.questionCount : Int) * 60
          omega
        · intro h
          replace h : PreActive s.quiz.status := h
          rw [hact] at h
          simp [PreActive] at h
      · exact ⟨htn, htl, hpc, hal, hib, hcs, hfs, hsb, hselb, hansb, hsc, hie⟩
  | timerZero =>
      show InvHolds (timerCheck s)
      unfold timerCheck
      split
      · rename_i hg
        obtain ⟨hz, hact⟩ := hg
        refine ⟨htn, htl, ?_, hal, hib, ?_, ?_, ?_, ?_, ?_, ?_, ?_⟩
        · intro h
          replace h : Status.completed = Status.idle ∨
              Status.completed = Status.fetching_sections ∨
              Status.completed = Status.selecting_section ∨
              Status.completed = Status.generating := h
          rcases h with h | h | h | h <;> nomatch h
        · intro h
          nomatch h
        · intro h
          nomatch h
        · intro h
          nomatch h
        · intro h
          nomatch h
        · intro h
          nomatch h
        · intro _
          have h2 := hsb hact
          show s.quiz.score ≤ s.quiz.questions.length
          cases hb : s.isAnswered with
          | true =>
              have hidx := hansb hact hb
              rw [hb] at h2
              simp at h2
              omega
          | false =>
              rw [hb] at h2
              simp at h2
              rcases hib with h3 | h3 <;> omega
        · intro h
          rcases h with h | h <;> nomatch h
      · exact ⟨htn, htl, hpc, hal, hib, hcs, hfs, hsb, hselb, hansb, hsc, hie⟩
  | reset =>
      exact invariant_init

/-- Every reachable component state satisfies the inductive invariant. -/
theorem reachable_invariant (s : AppState) (h : Reachable s) : InvHolds s := by
  induction h with
  | init => exact invariant_init
  | step s e hs he ih => exact invariant_step s e ih he

/-! ## A concrete run through the state machine -/

def sampleQuestion : Question :=
  { id := "q-0"
    text := "Which model uses labels?"
    options := ["MAC", "DAC", "RBAC", "ABAC"]
    correctAnswer := 0
    explanation := some "Mandatory access control uses labels." }

def sampleSyllabus : SyllabusInfo :=
  { sections := ["Security Principles"], sources := [] }

def namedIdle : AppState :=
  applyEvent initialAppState (.setExamName "CISSP")

def runFetching : AppState :=
  applyEvent namedIdle .fetchStart

def runSelecting : AppState :=
  applyEvent (applyEvent runFetching (.fetchSettle (.ok sampleSyllabus)))
    (.selectSection "Security Principles")

def runGenerating : AppState :=
  applyEvent runSelecting .genStart

def runActive : AppState :=
  applyEvent runGenerating (.genSettle (.ok [sampleQuestion]))

def runAnswered : AppState :=
  applyEvent (applyEvent runActive (.selectOption 0)) .submitAnswer

theorem reach_namedIdle : Reachable namedIdle :=
  Reachable.step _ _ Reachable.init rfl

theorem reach_runFetching : Reachable runFetching :=
  Reachable.step _ _ reach_namedIdle rfl

theorem reach_runSelecting : Reachable runSelecting :=
  Reachable.step _ _
    (Reachable.step _ _ reach_runFetching
      (show runFetching.quiz.status = Status.fetching_sections by decide))
    ⟨by decide, by decide⟩

theorem reach_runGenerating : Reachable runGenerating :=
  Reachable.step _ _ reach_runSelecting ⟨rfl, by decide⟩

theorem reach_runActive : Reachable runActive :=
  Reachable.step _ _ reach_runGenerating rfl

theorem reach_runAnswered : Reachable runAnswered :=
  Reachable.step _ _ (Reachable.step _ _ reach_runActive ⟨by decide, by decide, by decide⟩)
    ⟨by decide, by decide, by decide⟩

/-! ## The claims -/

/-- C1: in every reachable state, `timeRemaining` lies within
`[0, questionCount * 60]`; a timer tick decrements `timeRemaining` by
exactly 1 when the session is active, the timer running and the time
positive, and changes nothing otherwise; and the instant `timeRemaining` is
0 while the status is active, the zero-crossing branch forces the status to
completed with the timer stopped, keeps the time at 0 (never negative), and
applying the zero-crossing branch again changes nothing (no double
transition). -/
theorem C1_timer_safety (s : AppState) (h : Reachable s) :
    (0 ≤ s.quiz.timeRemaining ∧ s.quiz.timeRemaining ≤ (s.quiz.questionCount : Int) * 60)
    ∧ ((s.quiz.status = .active ∧ s.quiz.isTimerRunning = true ∧ 0 < s.quiz.timeRemaining) →
        (timerTick s).quiz.timeRemaining = s.quiz.timeRemaining - 1)
    ∧ (¬(s.quiz.status = .active ∧ s.quiz.isTimerRunning = true ∧ 0 < s.quiz.timeRemaining) →
        timerTick s = s)
    ∧ ((s.quiz.status = .active ∧ s.quiz.timeRemaining = 0) →
        (timerCheck s).quiz.status = .completed ∧
        (timerCheck s).quiz.isTimerRunning = false ∧
        (timerCheck s).quiz.timeRemaining = 0 ∧
        timerCheck (timerCheck s) = timerCheck s) := by
  obtain ⟨htn, htl, _, _, _, _, _, _, _, _, _, _⟩ := reachable_invariant s h
  refine ⟨⟨htn, htl⟩, ?_, ?_, ?_⟩
  · intro hg
    unfold timerTick
    rw [if_pos hg]
  · intro hg
    unfold timerTick
    rw [if_neg hg]
  · intro hg
    have h1 : timerCheck s =
        { s with quiz := { s.quiz with status := .completed, isTimerRunning := false } } := by
      unfold timerCheck
      rw [if_pos ⟨hg.2, hg.1⟩]
    refine ⟨by rw [h1], by rw [h1], by rw [h1]; exact hg.2, ?_⟩
    rw [h1]
    unfold timerCheck
    rw [if_neg (fun hc => by exact nomatch hc.2)]

/-- C1, instantiated at the concrete reachable active state `runActive`. -/
theorem C1_timer_safety_witness :
    (0 ≤ runActive.quiz.timeRemaining ∧
      runActive.quiz.timeRemaining ≤ (runActive.quiz.questionCount : Int) * 60)
    ∧ ((runActive.quiz.status = .active ∧ runActive.quiz.isTimerRunning = true ∧
          0 < runActive.quiz.timeRemaining) →
        (timerTick runActive).quiz.timeRemaining = runActive.quiz.timeRemaining - 1)
    ∧ (¬(runActive.quiz.status = .active ∧ runActive.quiz.isTimerRunning = true ∧
          0 < runActive.quiz.timeRemaining) →
        timerTick runActive = runActive)
    ∧ ((runActive.quiz.status = .active ∧ runActive.quiz.timeRemaining = 0) →
        (timerCheck runActive).quiz.status = .completed ∧
        (timerCheck runActive).quiz.isTimerRunning = false ∧
        (timerCheck runActive).quiz.timeRemaining = 0 ∧
        timerCheck (timerCheck runActive) = timerCheck runActive) :=
  C1_timer_safety runActive reach_runActive

/-- C2: in every reachable active state whose current answer slot is
already recorded, submitting again leaves the whole state unchanged — in
particular the score. -/
theorem C2_resubmit_noop (s : AppState) (h : Reachable s)
    (hact : s.quiz.status = .active) (v : Int)
    (hrec : s.quiz.answers.getD s.quiz.currentQuestionIndex none = some v) :
    handleAnswerSubmit s = s ∧ (handleAnswerSubmit s).quiz.score = s.quiz.score := by
  obtain ⟨_, _, _, _, _, hcs, _, _, _, _, _, _⟩ := reachable_invariant s h
  have hans : s.isAnswered = true := by
    cases hb : s.isAnswered with
    | false =>
        rw [hcs hact hb] at hrec
        nomatch hrec
    | true => rfl
  have hfix : handleAnswerSubmit s = s := by
    unfold handleAnswerSubmit
    rw [hans]
    cases hsel : s.selectedOption with
    | none => rfl
    | some v2 => rfl
  exact ⟨hfix, by rw [hfix]⟩

/-- C2, instantiated at the concrete state `runAnswered`, whose current
slot holds the recorded answer 0. -/
theorem C2_resubmit_noop_witness :
    runAnswered.quiz.answers.getD runAnswered.quiz.currentQuestionIndex none = some 0 ∧
    handleAnswerSubmit runAnswered = runAnswered ∧
    (handleAnswerSubmit runAnswered).quiz.score = runAnswered.quiz.score :=
  ⟨by decide, C2_resubmit_noop runAnswered reach_runAnswered (by decide) 0 (by decide)⟩

/-- C3: in every reachable state, the score is at most
`currentQuestionIndex + 1` while active, and at most `questions.length`
when completed. -/
theorem C3_score_bounds (s : AppState) (h : Reachable s) :
    (s.quiz.status = .active → s.quiz.score ≤ s.quiz.currentQuestionIndex + 1)
    ∧ (s.quiz.status = .completed → s.quiz.score ≤ s.quiz.questions.length) := by
  obtain ⟨_, _, _, _, _, _, _, hsb, _, _, hsc, _⟩ := reachable_invariant s h
  refine ⟨?_, hsc⟩
  intro hact
  have h2 := hsb hact
  split at h2 <;> omega

/-- C3, instantiated at the concrete reachable state `runAnswered`. -/
theorem C3_score_bounds_witness :
    (runAnswered.quiz.status = .active →
      runAnswered.quiz.score ≤ runAnswered.quiz.currentQuestionIndex + 1)
    ∧ (runAnswered.quiz.status = .completed →
      runAnswered.quiz.score ≤ runAnswered.quiz.questions.length) :=
  C3_score_bounds runAnswered reach_runAnswered

/-- C4: advancing from the last question completes the session without
incrementing the index, and in every reachable state with questions
present the index never exceeds `questions.length - 1`. -/
theorem C4_last_question_completes (s : AppState) (h : Reachable s) :
    (s.quiz.currentQuestionIndex = s.quiz.questions.length - 1 →
      (handleNextQuestion s).quiz.status = .completed ∧
      (handleNextQuestion s).quiz.currentQuestionIndex = s.quiz.currentQuestionIndex)
    ∧ (s.quiz.questions ≠ [] →
        s.quiz.currentQuestionIndex ≤ s.quiz.questions.length - 1) := by
  obtain ⟨_, _, _, _, hib, _, _, _, _, _, _, _⟩ := reachable_invariant s h
  constructor
  · intro hlast
    have hng : ¬ s.quiz.currentQuestionIndex < s.quiz.questions.length - 1 := by omega
    unfold handleNextQuestion
    rw [if_neg hng]
    exact ⟨rfl, rfl⟩
  · intro hne
    have hlen : 0 < s.quiz.questions.length := List.length_pos.2 hne
    rcases hib with h1 | h1 <;> omega

/-- C4, instantiated at `runActive`, whose single question is the last. -/
theorem C4_last_question_completes_witness :
    (runActive.quiz.currentQuestionIndex = runActive.quiz.questions.length - 1 →
      (handleNextQuestion runActive).quiz.status = .completed ∧
      (handleNextQuestion runActive).quiz.currentQuestionIndex =
        runActive.quiz.currentQuestionIndex)
    ∧ (runActive.quiz.questions ≠ [] →
        runActive.quiz.currentQuestionIndex ≤ runActive.quiz.questions.length - 1) :=
  C4_last_question_completes runActive reach_runActive

/-- C5: `resetQuiz`, applied to any state, returns every session field to
its documented initial value. -/
theorem C5_reset_restores_initial (s : AppState) :
    (resetQuiz s).quiz.examName = "" ∧
    (resetQuiz s).quiz.sections = [] ∧
    (resetQuiz s).quiz.sources = [] ∧
    (resetQuiz s).quiz.questions = [] ∧
    (resetQuiz s).quiz.answers = [] ∧
    (resetQuiz s).quiz.selectedSection = none ∧
    (resetQuiz s).quiz.questionCount = 5 ∧
    (resetQuiz s).quiz.timeRemaining = 0 ∧
    (resetQuiz s).quiz.isTimerRunning = false ∧
    (resetQuiz s).quiz.currentQuestionIndex = 0 ∧
    (resetQuiz s).quiz.score = 0 ∧
    (resetQuiz s).quiz.status = .idle ∧
    (resetQuiz s).quiz.error = none ∧
    resetQuiz s = initialAppState :=
  ⟨rfl, rfl, rfl, rfl, rfl, rfl, rfl, rfl, rfl, rfl, rfl, rfl, rfl, rfl⟩

/-- C6: when the question-generation response is malformed, the thrown
message is non-empty, and settling the failure from any reachable
generating state returns the session to `selecting_section` with that
non-empty error while `questions` stays empty. -/
theorem C6_generation_failure_surfaced (s : AppState) (h : Reachable s)
    (hg : s.quiz.status = .generating) (count : Nat) :
    ∃ msg, generateQuestions count .malformed = .error msg ∧ msg ≠ "" ∧
      (handleGenerateQuestionsSettle s (.error msg)).quiz.status = .selecting_section ∧
      (handleGenerateQuestionsSettle s (.error msg)).quiz.error = some msg ∧
      (handleGenerateQuestionsSettle s (.error msg)).quiz.questions = [] := by
  obtain ⟨_, _, hpc, _, _, _, _, _, _, _, _, _⟩ := reachable_invariant s h
  have hq : s.quiz.questions = [] := (hpc (Or.inr (Or.inr (Or.inr hg)))).2.2.2.1
  exact ⟨"Failed to generate questions. Please try again.", rfl, by decide, rfl, rfl, hq⟩

/-- C6, instantiated at the concrete generating state `runGenerating` with
the requested count 5. -/
theorem C6_generation_failure_surfaced_witness :
    ∃ msg, generateQuestions 5 .malformed = .error msg ∧ msg ≠ "" ∧
      (handleGenerateQuestionsSettle runGenerating (.error msg)).quiz.status =
        .selecting_section ∧
      (handleGenerateQuestionsSettle runGenerating (.error msg)).quiz.error = some msg ∧
      (handleGenerateQuestionsSettle runGenerating (.error msg)).quiz.questions = [] :=
  C6_generation_failure_surfaced runGenerating reach_runGenerating (by decide) 5

/-- C7: when the syllabus response body parses without a `sections` field,
or fails to parse, `getExamSections` returns exactly the fixed 4-item
fallback list, and settling that successful result from any reachable
fetching state advances the session to `selecting_section` with no
error. -/
theorem C7_sections_fallback (s : AppState) (h : Reachable s)
    (hf : s.quiz.status = .fetching_sections) (resp : SectionsResponse)
    (hbad : resp.body = .parsed none ∨ resp.body = .malformed) :
    (getExamSections resp).sections =
      ["General Knowledge", "Core Concepts", "Advanced Topics", "Practice Set"] ∧
    (handleFetchSectionsSettle s (.ok (getExamSections resp))).quiz.status =
      .selecting_section ∧
    (handleFetchSectionsSettle s (.ok (getExamSections resp))).quiz.error = none := by
  obtain ⟨_, _, _, _, _, _, _, _, _, _, _, hie⟩ := reachable_invariant s h
  have herr : s.quiz.error = none := hie (Or.inl hf)
  refine ⟨?_, rfl, herr⟩
  unfold getExamSections
  rcases hbad with hb | hb <;> rw [hb] <;> rfl

/-- A syllabus response with a grounding citation whose body fails to
parse. -/
def sampleBadResponse : SectionsResponse :=
  { groundingWebs := [some { title := "ISC2", uri := "https://isc2.org" }]
    body := .malformed }

/-- C7, instantiated at the concrete fetching state `runFetching` and the
malformed response `sampleBadResponse`. -/
theorem C7_sections_fallback_witness :
    (getExamSections sampleBadResponse).sections =
      ["General Knowledge", "Core Concepts", "Advanced Topics", "Practice Set"] ∧
    (handleFetchSectionsSettle runFetching
        (.ok (getExamSections sampleBadResponse))).quiz.status = .selecting_section ∧
    (handleFetchSectionsSettle runFetching
        (.ok (getExamSections sampleBadResponse))).quiz.error = none :=
  C7_sections_fallback runFetching reach_runFetching (by decide) sampleBadResponse
    (Or.inr rfl)

/-- A parsed item that violates every shape requirement: 2 options and an
out-of-range correct-answer index. -/
def badRawQuestion : RawQuestion :=
  { text := "t", options := ["a", "b"], correctAnswer := 7, explanation := "e" }

/-- C8 counterexample: `generateQuestions` accepts (returns ok) a parsed
response containing a single malformed item even though the requested
count is 5: the accepted result has length 1 ≠ 5, its question carries 2
options rather than exactly 4, and its `correctAnswer` 7 is outside
`[0, 4)`. -/
theorem C8_counterexample_no_validation :
    generateQuestions 5 (.parsed [badRawQuestion]) = .ok [attachId (0, badRawQuestion)] ∧
    [attachId (0, badRawQuestion)].length ≠ 5 ∧
    (attachId (0, badRawQuestion)).options.length ≠ 4 ∧
    ¬(0 ≤ (attachId (0, badRawQuestion)).correctAnswer ∧
      (attachId (0, badRawQuestion)).correctAnswer < 4) :=
  ⟨rfl, by decide, by decide, by decide⟩

/-- C8 (amended): every response `generateQuestions` accepts is a parsed
array returned verbatim with ids attached: the result's length equals the
parsed array's length — not necessarily the requested count — and each
entry copies the parsed item's fields unchanged, with no validation of the
option arity or the `correctAnswer` range. -/
theorem C8_amended_accepted_verbatim (count : Nat) (resp : QuestionsBody)
    (qs : List Question) (hacc : generateQuestions count resp = .ok qs) :
    ∃ items, resp = .parsed items ∧ qs = items.enum.map attachId ∧
      qs.length = items.length ∧
      ∀ i q0, items.get? i = some q0 → qs.get? i = some (attachId (i, q0)) := by
  cases resp with
  | malformed => nomatch hacc
  | parsed items =>
      have hqs : qs = items.enum.map attachId :=
        (Except.ok.inj hacc).symm
      refine ⟨items, rfl, hqs, ?_, ?_⟩
      · rw [hqs]
        simp
      · intro i q0 hq0
        rw [hqs, List.get?_map, List.get?_enum, hq0]
        rfl

/-- C8 (amended), instantiated at the accepted single-item response. -/
theorem C8_amended_accepted_verbatim_witness :
    ∃ items, QuestionsBody.parsed [badRawQuestion] = .parsed items ∧
      [attachId (0, badRawQuestion)] = items.enum.map attachId ∧
      [attachId (0, badRawQuestion)].length = items.length ∧
      ∀ i q0, items.get? i = some q0 →
        [attachId (0, badRawQuestion)].get? i = some (attachId (i, q0)) :=
  C8_amended_accepted_verbatim 5 (.parsed [badRawQuestion]) [attachId (0, badRawQuestion)]
    rfl

/-- The reachable idle state whose exam name is a single space. -/
def blankNameIdle : AppState :=
  applyEvent initialAppState (.setExamName " ")

/-- C9 counterexample: a reachable idle state with the non-empty exam name
consisting of one space; submitting it does not initiate the fetch — the
state is unchanged and in particular not in `fetching_sections`. -/
theorem C9_counterexample_blank_name :
    Reachable blankNameIdle ∧
    blankNameIdle.quiz.status = .idle ∧
    blankNameIdle.quiz.examName ≠ "" ∧
    handleFetchSectionsStart blankNameIdle = blankNameIdle ∧
    (handleFetchSectionsStart blankNameIdle).quiz.status ≠ .fetching_sections :=
  ⟨Reachable.step _ _ Reachable.init rfl, rfl, by decide, by decide, by decide⟩

/-- C9 (amended): from idle, submitting an exam name that is non-empty
after trimming whitespace clears the error and enters `fetching_sections`;
names that trim to empty are ignored. -/
theorem C9_amended_trimmed_nonempty (s : AppState) (hi : s.quiz.status = .idle)
    (hn : jsTrim s.quiz.examName ≠ "") :
    (handleFetchSectionsStart s).quiz.status = .fetching_sections ∧
    (handleFetchSectionsStart s).quiz.error = none := by
  unfold handleFetchSectionsStart
  rw [if_neg hn]
  exact ⟨rfl, rfl⟩

/-- C9 (amended), instantiated at the concrete idle state named CISSP. -/
theorem C9_amended_trimmed_nonempty_witness :
    (handleFetchSectionsStart namedIdle).quiz.status = .fetching_sections ∧
    (handleFetchSectionsStart namedIdle).quiz.error = none :=
  C9_amended_trimmed_nonempty namedIdle rfl (by decide)

/-- C10: `getExamSections` always returns at most 3 source citations, and
returns none at all when the body fails to parse, even if grounding
citations are present in the response. -/
theorem C10_sources_bound (resp : SectionsResponse) :
    (getExamSections resp).sources.length ≤ 3 ∧
    (resp.body = .malformed → (getExamSections resp).sources = []) := by
  unfold getExamSections
  cases hb : resp.body with
  | parsed sectionsField =>
      constructor
      · show (((resp.groundingWebs.filterMap id).filter
            (fun w => w.uri != "")).take 3).length ≤ 3
        rw [List.length_take]
        omega
      · intro hm
        nomatch hm
  | malformed =>
      refine ⟨?_, fun _ => rfl⟩
      show ([] : List Web).length ≤ 3
      decide

/-- C10, instantiated at the malformed response carrying one citation. -/
theorem C10_sources_bound_witness :
    (getExamSections sampleBadResponse).sources.length ≤ 3 ∧
    (sampleBadResponse.body = .malformed →
      (getExamSections sampleBadResponse).sources = []) :=
  C10_sources_bound sampleBadResponse

end PrepPilot
